import Mathlib

/-!
Verification of the Thai national ID card reader core
(`thai-id-card-reader.ts`, `applets/personal-applet.ts`, `applets/nhso-applet.ts`,
`utils/reader.ts`, `apdu/person.ts`, `apdu/nhso.ts`).

The TypeScript source is shallowly embedded:

* A `Buffer` is a `List Nat` of byte values.
* A smartcard is a stateful oracle: each `issueCommand` consumes the next
  entry of a response queue `List (Option (List Nat))`; `none` means the
  command throws.  Card interactions live in a monad `CardM` that threads
  the queue, records the issued commands, and propagates thrown errors
  (`Except String`).
* `Buffer.prototype.toString()` on the ASCII payloads used here is modelled
  byte-by-byte (`bufToString`); the external `legacy-encoding` TIS-620 codec
  is modelled by `tis620Decode` (identity on ASCII, the Thai block otherwise);
  the external `hex2imagebase64` image encoder is kept abstract as a function
  parameter `b64 : String → String`.
* JavaScript `parseInt` (decimal) is `jsParseIntDec`, returning `none` for
  `NaN`; interpolating a possibly-`NaN` number into a template string is
  `numRender`.
-/

/-- Model of `Buffer.prototype.toString()` for the ASCII payloads read from
the card: each byte becomes the character with that code point. -/
def bufToString (bytes : List Nat) : String :=
  String.mk (bytes.map Char.ofNat)

/-- Lower-case hexadecimal digit, as produced by `Buffer.prototype.toString('hex')`. -/
def hexDigit (n : Nat) : Char :=
  if n < 10 then Char.ofNat (48 + n) else Char.ofNat (87 + n)

/-- The two hex characters of one byte. -/
def hexByteChars (b : Nat) : List Char :=
  [hexDigit ((b / 16) % 16), hexDigit (b % 16)]

/-- Characters of `buffer.toString('hex')`: two lower-case hex digits per byte. -/
def hexChars (bytes : List Nat) : List Char :=
  bytes.flatMap hexByteChars

/-- Model of `buffer.toString('hex')`. -/
def hexOfBytes (bytes : List Nat) : String :=
  String.mk (hexChars bytes)

/-- Model of the external `legacy-encoding` TIS-620 decoder (a black-box
collaborator in the source): bytes in the TIS-620 Thai block `0xa1..` map to
`U+0E01..`, other bytes decode as their own code point. -/
def tis620Decode (bytes : List Nat) : String :=
  String.mk (bytes.map fun b => if 0xa1 ≤ b then Char.ofNat (b + 0xd60) else Char.ofNat b)

/-- Model of `str.replace(/\0/g, '')`. -/
def removeNulls (s : String) : String :=
  String.mk (s.data.filter fun c => c ≠ Char.ofNat 0)

/-- Model of `buffer.slice(0, -n)` / `array.slice(0, -n)`: everything but the
last `n` elements.  (Defined structurally so that the kernel can evaluate it;
the core `String` operations are defined by well-founded recursion and do
not reduce.) -/
def sliceToNeg (n : Nat) (l : List α) : List α :=
  l.take (l.length - n)

/-- JS `str.trim()`: strip leading and trailing whitespace. -/
def jsTrim (s : String) : String :=
  String.mk (((s.data.dropWhile Char.isWhitespace).reverse.dropWhile
    Char.isWhitespace).reverse)

/-- JS `str.slice(a, b)` (also `substring(a, b)` for `0 ≤ a ≤ b`). -/
def jsSlice (s : String) (a b : Nat) : String :=
  String.mk ((s.data.take b).drop a)

/-- JS `str.substring(n)` to the end of the string. -/
def jsDrop (s : String) (n : Nat) : String :=
  String.mk (s.data.drop n)

/-- JS `str.slice(0, -n)`. -/
def jsSliceToNeg (n : Nat) (s : String) : String :=
  String.mk (sliceToNeg n s.data)

/-- JS `str.split(sep)` for a one-character separator, on character lists:
always at least one (possibly empty) token. -/
def splitChar (sep : Char) : List Char → List (List Char)
  | [] => [[]]
  | c :: rest =>
    let r := splitChar sep rest
    if c = sep then [] :: r
    else (c :: r.headD []) :: r.tail

/-- JS `str.split(sep)` for a one-character separator. -/
def jsSplit (sep : Char) (s : String) : List String :=
  (splitChar sep s.data).map String.mk

/-- JS `str.startsWith(p)`. -/
def jsStartsWith (s p : String) : Bool :=
  s.data.take p.data.length = p.data

/-- JS `arr.join(sep)`. -/
def jsJoin (sep : String) : List String → String
  | [] => ""
  | [x] => x
  | x :: y :: rest => x ++ sep ++ jsJoin sep (y :: rest)

/-- Value of a list of decimal digit characters. -/
def digitsVal (cs : List Char) : Nat :=
  cs.foldl (fun a c => a * 10 + (c.toNat - 48)) 0

/-- Model of JavaScript `parseInt(s, 10)` on the strings reaching it here:
skip leading spaces, an optional sign, then the longest decimal-digit
prefix; `none` models `NaN` (no digits). -/
def jsParseIntDec (s : String) : Option Int :=
  let cs := s.data.dropWhile fun c => c = ' '
  let neg : Bool := cs.head? = some '-'
  let cs2 := if cs.head? = some '-' ∨ cs.head? = some '+' then cs.tail else cs
  let ds := cs2.takeWhile Char.isDigit
  if ds.isEmpty then none
  else some (if neg then -(digitsVal ds : Int) else (digitsVal ds : Int))

/-- Interpolating a number that may be `NaN` into a template string. -/
def numRender : Option Int → String
  | none => "NaN"
  | some n => toString n

instance [DecidableEq ε] [DecidableEq α] : DecidableEq (Except ε α) := fun a b =>
  match a, b with
  | .ok x, .ok y => if h : x = y then .isTrue (by rw [h]) else .isFalse (by simp [h])
  | .error x, .error y => if h : x = y then .isTrue (by rw [h]) else .isFalse (by simp [h])
  | .ok _, .error _ => .isFalse (by simp)
  | .error _, .ok _ => .isFalse (by simp)

section CardMonad

/-- The response queue of the card oracle: the i-th issued command receives
the i-th entry; `none` makes `issueCommand` throw. -/
abbrev Resp := List (Option (List Nat))

/-- Card-session monad: threads the response queue, accumulates the list of
issued command byte-sequences, propagates thrown errors. -/
def CardM (α : Type) : Type :=
  Resp → Except String α × Resp × List (List Nat)

def CardM.pure (a : α) : CardM α := fun rs => (.ok a, rs, [])

def CardM.bind (x : CardM α) (f : α → CardM β) : CardM β := fun rs =>
  match x rs with
  | (.error e, rs', log) => (.error e, rs', log)
  | (.ok a, rs', log) =>
    let (r, rs'', log') := f a rs'
    (r, rs'', log ++ log')

instance : Monad CardM where
  pure := CardM.pure
  bind := CardM.bind

/-- Model of `card.issueCommand(new CommandApdu(..))`: consume the next queued
response; `none` (or an exhausted queue) models a rejected promise. -/
def issueCommand (bytes : List Nat) : CardM (List Nat) := fun rs =>
  match rs with
  | [] => (.error "no response", [], [bytes])
  | none :: rest => (.error "command failed", rest, [bytes])
  | some data :: rest => (.ok data, rest, [bytes])

/-- Embedding of a JS try/catch around card code. -/
def CardM.tryCatch (x : CardM α) (h : String → CardM α) : CardM α := fun rs =>
  match x rs with
  | (.error e, rs', log) =>
    let (r, rs'', log') := h e rs'
    (r, rs'', log ++ log')
  | ok => ok

/-- A synchronous `throw`/value inside card code. -/
def liftE (e : Except String α) : CardM α := fun rs => (e, rs, [])

end CardMonad

namespace apduPerson

/-! APDU command catalogue for the personal applet (`src/apdu/person.ts`). -/

def SELECT : List Nat := [0x00, 0xa4, 0x04, 0x00, 0x08]
def THAI_CARD : List Nat := [0xa0, 0x00, 0x00, 0x00, 0x54, 0x48, 0x00, 0x01]
def CMD_CID : List Nat := [0x80, 0xb0, 0x00, 0x04, 0x02, 0x00, 0x0d]
def CMD_THFULLNAME : List Nat := [0x80, 0xb0, 0x00, 0x11, 0x02, 0x00, 0x64]
def CMD_ENFULLNAME : List Nat := [0x80, 0xb0, 0x00, 0x75, 0x02, 0x00, 0x64]
def CMD_BIRTH : List Nat := [0x80, 0xb0, 0x00, 0xd9, 0x02, 0x00, 0x08]
def CMD_GENDER : List Nat := [0x80, 0xb0, 0x00, 0xe1, 0x02, 0x00, 0x01]
def CMD_ISSUER : List Nat := [0x80, 0xb0, 0x00, 0xf6, 0x02, 0x00, 0x64]
def CMD_ISSUE : List Nat := [0x80, 0xb0, 0x01, 0x67, 0x02, 0x00, 0x08]
def CMD_EXPIRE : List Nat := [0x80, 0xb0, 0x01, 0x6f, 0x02, 0x00, 0x08]
def CMD_ADDRESS : List Nat := [0x80, 0xb0, 0x15, 0x79, 0x02, 0x00, 0x64]
def CMD_PHOTO1 : List Nat := [0x80, 0xb0, 0x01, 0x7b, 0x02, 0x00, 0xff]
def CMD_PHOTO2 : List Nat := [0x80, 0xb0, 0x02, 0x7a, 0x02, 0x00, 0xff]
def CMD_PHOTO3 : List Nat := [0x80, 0xb0, 0x03, 0x79, 0x02, 0x00, 0xff]
def CMD_PHOTO4 : List Nat := [0x80, 0xb0, 0x04, 0x78, 0x02, 0x00, 0xff]
def CMD_PHOTO5 : List Nat := [0x80, 0xb0, 0x05, 0x77, 0x02, 0x00, 0xff]
def CMD_PHOTO6 : List Nat := [0x80, 0xb0, 0x06, 0x76, 0x02, 0x00, 0xff]
def CMD_PHOTO7 : List Nat := [0x80, 0xb0, 0x07, 0x75, 0x02, 0x00, 0xff]
def CMD_PHOTO8 : List Nat := [0x80, 0xb0, 0x08, 0x74, 0x02, 0x00, 0xff]
def CMD_PHOTO9 : List Nat := [0x80, 0xb0, 0x09, 0x73, 0x02, 0x00, 0xff]
def CMD_PHOTO10 : List Nat := [0x80, 0xb0, 0x0a, 0x72, 0x02, 0x00, 0xff]
def CMD_PHOTO11 : List Nat := [0x80, 0xb0, 0x0b, 0x71, 0x02, 0x00, 0xff]
def CMD_PHOTO12 : List Nat := [0x80, 0xb0, 0x0c, 0x70, 0x02, 0x00, 0xff]
def CMD_PHOTO13 : List Nat := [0x80, 0xb0, 0x0d, 0x6f, 0x02, 0x00, 0xff]
def CMD_PHOTO14 : List Nat := [0x80, 0xb0, 0x0e, 0x6e, 0x02, 0x00, 0xff]
def CMD_PHOTO15 : List Nat := [0x80, 0xb0, 0x0f, 0x6d, 0x02, 0x00, 0xff]
def CMD_PHOTO16 : List Nat := [0x80, 0xb0, 0x10, 0x6c, 0x02, 0x00, 0xff]
def CMD_PHOTO17 : List Nat := [0x80, 0xb0, 0x11, 0x6b, 0x02, 0x00, 0xff]
def CMD_PHOTO18 : List Nat := [0x80, 0xb0, 0x12, 0x6a, 0x02, 0x00, 0xff]
def CMD_PHOTO19 : List Nat := [0x80, 0xb0, 0x13, 0x69, 0x02, 0x00, 0xff]
def CMD_PHOTO20 : List Nat := [0x80, 0xb0, 0x14, 0x68, 0x02, 0x00, 0xff]

end apduPerson

namespace apduNhso

/-! APDU command catalogue for the NHSO applet (`src/apdu/nhso.ts`). -/

def SELECT : List Nat := [0x00, 0xa4, 0x04, 0x00, 0x08, 0xa0, 0x00, 0x00, 0x00, 0x54, 0x48, 0x00, 0x83]
def CMD_MAIN_INSCL : List Nat := [0x80, 0xb0, 0x00, 0x04, 0x02, 0x00, 0x3c]
def CMD_SUB_INSCL : List Nat := [0x80, 0xb0, 0x00, 0x40, 0x02, 0x00, 0x64]
def CMD_MAIN_HOSPITAL_NAME : List Nat := [0x80, 0xb0, 0x00, 0xa4, 0x02, 0x00, 0x50]
def CMD_SUB_HOSPITAL_NAME : List Nat := [0x80, 0xb0, 0x00, 0xf4, 0x02, 0x00, 0x50]
def CMD_PAID_TYPE : List Nat := [0x80, 0xb0, 0x01, 0x44, 0x02, 0x00, 0x01]
def CMD_ISSUE_DATE : List Nat := [0x80, 0xb0, 0x01, 0x45, 0x02, 0x00, 0x08]
def CMD_EXPIRE_DATE : List Nat := [0x80, 0xb0, 0x01, 0x4d, 0x02, 0x00, 0x08]
def CMD_UPDATE_DATE : List Nat := [0x80, 0xb0, 0x01, 0x55, 0x02, 0x00, 0x08]
def CMD_CHANGE_HOSPITAL_AMOUNT : List Nat := [0x80, 0xb0, 0x01, 0x5d, 0x02, 0x00, 0x01]

end apduNhso

/-- Source `utils/reader.ts` `getData`: the two-phase read — issue the field command,
then re-issue the request prefix followed by the command's trailing length
byte (`command.slice(-1)`), returning the second response. -/
def getData (command req : List Nat) : CardM (List Nat) := do
  let _ ← issueCommand command
  issueCommand (req ++ command.drop (command.length - 1))

/-- Source `utils/reader.ts` `getLaser`: select the laser applet, probe, re-read with
the request prefix, strip the 2 status bytes, drop NULs, trim. -/
def getLaser (req : List Nat) : CardM String := do
  let _ ← issueCommand [0x00, 0xa4, 0x04, 0x00, 0x08, 0xa0, 0x00, 0x00, 0x00, 0x84, 0x06, 0x00, 0x02]
  let _ ← issueCommand [0x80, 0x00, 0x00, 0x00, 0x07]
  let data ← issueCommand (req ++ [0x10])
  pure (jsTrim (removeNulls (bufToString (sliceToNeg 2 data))))

/-- Source `personal-applet.ts` `convertBuddhistToGregorianDate`: throws on a
non-8-character input, otherwise subtracts 543 from the 4-digit year and
keeps the month/day substrings. -/
def convertBuddhistToGregorianDate (buddhistDateStr : String) : Except String String :=
  if buddhistDateStr.length ≠ 8 then
    .error ("Invalid date format: " ++ buddhistDateStr ++ ". Expected YYYYMMDD.")
  else
    let buddhistYear := jsParseIntDec (jsSlice buddhistDateStr 0 4)
    let month := jsSlice buddhistDateStr 4 6
    let day := jsSlice buddhistDateStr 6 8
    let gregorianYear := buddhistYear.map (· - 543)
    .ok (numRender gregorianYear ++ "-" ++ month ++ "-" ++ day)

/-- Source `nhso-applet.ts` `convertBuddhistDate`: empty string on a falsy or
non-8-character input, otherwise the same year conversion.  (Its `try`/`catch`
can never fire: `parseInt` does not throw.) -/
def convertBuddhistDate (buddhistDate : String) : String :=
  if buddhistDate = "" ∨ buddhistDate.length ≠ 8 then ""
  else
    let year := (jsParseIntDec (jsSlice buddhistDate 0 4)).map (· - 543)
    let month := jsSlice buddhistDate 4 6
    let day := jsSlice buddhistDate 6 8
    numRender year ++ "-" ++ month ++ "-" ++ day

/-- Source `personal-applet.ts` `NameComponents`.  The source field `prefix` is a
Lean keyword and is rendered `prefixName`. -/
structure NameComponents where
  prefixName : String
  firstname : String
  middlename : String
  lastname : String
  fullname : String
deriving DecidableEq

/-- Source `personal-applet.ts` `parseNameComponents`: strip the 2 decoded footer
characters, trim, split on `#`, keep the first four tokens (missing tokens
become empty), space-join the non-empty ones into `fullname`. -/
def parseNameComponents (decodedData : String) : NameComponents :=
  let nameArray := jsSplit '#' (jsTrim (jsSliceToNeg 2 decodedData))
  let p := jsTrim (nameArray.getD 0 "")
  let f := jsTrim (nameArray.getD 1 "")
  let m := jsTrim (nameArray.getD 2 "")
  let l := jsTrim (nameArray.getD 3 "")
  { prefixName := p, firstname := f, middlename := m, lastname := l,
    fullname := jsTrim (jsJoin " " ([p, f, m, l].filter fun part => part.length > 0)) }

/-- Source `personal-applet.ts` `AddressComponents`. -/
structure AddressComponents where
  houseNo : String
  moo : String
  soi : String
  street : String
  subdistrict : String
  district : String
  province : String
  fullAddress : String
deriving DecidableEq

/-- Source `extractMooNumber`: the village-group marker has 7 characters. -/
def extractMooNumber (addressPart : String) : String :=
  if jsStartsWith addressPart "หมู่ที่" then jsTrim (jsDrop addressPart 7) else ""

/-- Source `extractSoiName`: the lane marker has 3 characters. -/
def extractSoiName (addressPart : String) : String :=
  if jsStartsWith addressPart "ซอย" then jsTrim (jsDrop addressPart 3) else ""

/-- Source `extractSubdistrict`. -/
def extractSubdistrict (addressPart : String) : String :=
  if addressPart.length ≥ 4 then jsTrim (jsDrop addressPart 4) else ""

/-- Source `extractDistrict`: urban-district marker (3 characters) or the longer
rural-district marker (5 characters). -/
def extractDistrict (addressPart : String) : String :=
  if jsStartsWith addressPart "เขต" then jsTrim (jsDrop addressPart 3)
  else if addressPart.length ≥ 5 then jsTrim (jsDrop addressPart 5)
  else ""

/-- Source `extractProvince`. -/
def extractProvince (addressPart : String) : String :=
  if addressPart.length ≥ 7 then jsTrim (jsDrop addressPart 7) else ""

/-- Source `personal-applet.ts` `parseAddressComponents`.  Negative-index accesses
(`parts[parts.length - k]`) yield `undefined` (here the default `""`) when
the list is shorter than `k`. -/
def parseAddressComponents (addressStr : String) : AddressComponents :=
  let addressParts := jsSplit '#' addressStr
  let n := addressParts.length
  { houseNo := jsTrim (addressParts.getD 0 "")
    moo := extractMooNumber (addressParts.getD 1 "")
    soi := extractSoiName (addressParts.getD 1 "")
    street := jsTrim (jsJoin " " ((sliceToNeg 3 addressParts).drop 2))
    subdistrict := extractSubdistrict (if n ≥ 3 then addressParts.getD (n - 3) "" else "")
    district := extractDistrict (if n ≥ 2 then addressParts.getD (n - 2) "" else "")
    province := extractProvince (if n ≥ 1 then addressParts.getD (n - 1) "" else "")
    fullAddress :=
      jsTrim (jsJoin " "
        (addressParts.filter fun part => part ≠ "" ∧ (jsTrim part).length > 0)) }

/-- The query fields of `src/types.ts` (`ALL_FIELDS` of the reader). -/
inductive QueryField where
  | cid | name | nameEn | dob | gender | issuer | issueDate | expireDate
  | address | photo | nhso | laserId
deriving DecidableEq

/-- Source `nhso-applet.ts` `NhsoData`: all sub-fields optional. -/
structure NhsoData where
  mainInscl : Option String := none
  subInscl : Option String := none
  mainHospitalName : Option String := none
  subHospitalName : Option String := none
  paidType : Option String := none
  issueDate : Option String := none
  expireDate : Option String := none
  updateDate : Option String := none
  changeHospitalAmount : Option String := none
deriving DecidableEq

/-- Source `types.ts` `ThaiIdCardData`: all fields optional (absence = key not set). -/
structure ThaiIdCardData where
  cid : Option String := none
  name : Option String := none
  nameEn : Option String := none
  dob : Option String := none
  gender : Option String := none
  issuer : Option String := none
  issueDate : Option String := none
  expireDate : Option String := none
  address : Option String := none
  photo : Option String := none
  nhso : Option NhsoData := none
  laserId : Option String := none
deriving DecidableEq

namespace PersonalApplet

/-- The boolean lookup built by `createFieldLookup` (initial object: every
personal field `false`). -/
structure FieldLookup where
  cid : Bool := false
  name : Bool := false
  nameEn : Bool := false
  dob : Bool := false
  gender : Bool := false
  issuer : Bool := false
  issueDate : Bool := false
  expireDate : Bool := false
  address : Bool := false
  photo : Bool := false
deriving DecidableEq

/-- One step of the `reduce`: `{ ...lookup, [field]: true }`.  The keys
`nhso`/`laserId` are never consulted by `getInfo` and are dropped. -/
def setField (l : FieldLookup) (f : QueryField) : FieldLookup :=
  match f with
  | .cid => { l with cid := true }
  | .name => { l with name := true }
  | .nameEn => { l with nameEn := true }
  | .dob => { l with dob := true }
  | .gender => { l with gender := true }
  | .issuer => { l with issuer := true }
  | .issueDate => { l with issueDate := true }
  | .expireDate => { l with expireDate := true }
  | .address => { l with address := true }
  | .photo => { l with photo := true }
  | .nhso => l
  | .laserId => l

/-- Source `personal-applet.ts` `createFieldLookup`. -/
def createFieldLookup (queryFields : List QueryField) : FieldLookup :=
  queryFields.foldl setField {}

/-- Source `extractCitizenId`. -/
def extractCitizenId (req : List Nat) : CardM String := do
  let data ← getData apduPerson.CMD_CID req
  pure (jsTrim (bufToString (sliceToNeg 2 data)))

/-- Source `extractThaiName`. -/
def extractThaiName (req : List Nat) : CardM String := do
  let data ← getData apduPerson.CMD_THFULLNAME req
  pure (parseNameComponents (tis620Decode data)).fullname

/-- Source `extractEnglishName`. -/
def extractEnglishName (req : List Nat) : CardM String := do
  let data ← getData apduPerson.CMD_ENFULLNAME req
  pure (parseNameComponents (tis620Decode data)).fullname

/-- Source `extractDateOfBirth` (conversion may throw). -/
def extractDateOfBirth (req : List Nat) : CardM String := do
  let data ← getData apduPerson.CMD_BIRTH req
  liftE (convertBuddhistToGregorianDate (jsTrim (bufToString (sliceToNeg 2 data))))

/-- Source `extractGender`. -/
def extractGender (req : List Nat) : CardM String := do
  let data ← getData apduPerson.CMD_GENDER req
  pure (jsTrim (bufToString (sliceToNeg 2 data)))

/-- Source `extractIssuer` (decode, then strip the 2 footer characters, trim). -/
def extractIssuer (req : List Nat) : CardM String := do
  let data ← getData apduPerson.CMD_ISSUER req
  pure (jsTrim (jsSliceToNeg 2 (tis620Decode data)))

/-- Source `extractIssueDate`. -/
def extractIssueDate (req : List Nat) : CardM String := do
  let data ← getData apduPerson.CMD_ISSUE req
  liftE (convertBuddhistToGregorianDate (jsTrim (bufToString (sliceToNeg 2 data))))

/-- Source `extractExpireDate`. -/
def extractExpireDate (req : List Nat) : CardM String := do
  let data ← getData apduPerson.CMD_EXPIRE req
  liftE (convertBuddhistToGregorianDate (jsTrim (bufToString (sliceToNeg 2 data))))

/-- Source `extractAddress`. -/
def extractAddress (req : List Nat) : CardM String := do
  let data ← getData apduPerson.CMD_ADDRESS req
  let addressStr := jsTrim (jsSliceToNeg 2 (tis620Decode data))
  if addressStr.length = 0 then pure ""
  else pure (parseAddressComponents addressStr).fullAddress

/-- Source `PHOTO_COMMANDS`, resolved to the catalogue entries, in order. -/
def PHOTO_COMMANDS : List (List Nat) :=
  [apduPerson.CMD_PHOTO1, apduPerson.CMD_PHOTO2, apduPerson.CMD_PHOTO3,
   apduPerson.CMD_PHOTO4, apduPerson.CMD_PHOTO5, apduPerson.CMD_PHOTO6,
   apduPerson.CMD_PHOTO7, apduPerson.CMD_PHOTO8, apduPerson.CMD_PHOTO9,
   apduPerson.CMD_PHOTO10, apduPerson.CMD_PHOTO11, apduPerson.CMD_PHOTO12,
   apduPerson.CMD_PHOTO13, apduPerson.CMD_PHOTO14, apduPerson.CMD_PHOTO15,
   apduPerson.CMD_PHOTO16, apduPerson.CMD_PHOTO17, apduPerson.CMD_PHOTO18,
   apduPerson.CMD_PHOTO19, apduPerson.CMD_PHOTO20]

/-- The `for`-loop body of `extractPhoto`: per segment, the response's hex
string minus its last 4 hex characters (the 2 status bytes). -/
def photoLoop (cmds : List (List Nat)) (req : List Nat) : CardM (List String) :=
  match cmds with
  | [] => pure []
  | c :: cs => do
    let data ← getData c req
    let rest ← photoLoop cs req
    pure (String.mk (sliceToNeg 4 (hexChars data)) :: rest)

/-- Source `extractPhoto`: read the 20 segments in catalogue order, join the
footer-stripped hex parts, hand to the external `hex2imagebase64`
collaborator `b64`. -/
def extractPhoto (req : List Nat) (b64 : String → String) : CardM String := do
  let parts ← photoLoop PHOTO_COMMANDS req
  pure (b64 (jsJoin "" parts))

/-- Conditional field extraction step of `getInfo`
(`if (requestedFields.x) extractedData.x = await this.extractX()`). -/
def condField (c : Bool) (g : CardM String)
    (set : ThaiIdCardData → String → ThaiIdCardData) (d : ThaiIdCardData) :
    CardM ThaiIdCardData :=
  if c then do
    let v ← g
    pure (set d v)
  else pure d

/-- Source `personal-applet.ts` `getInfo`, default argument `['cid']` as in the
source.  Selects the applet, then extracts each requested field in order;
any failure propagates. -/
def getInfo (req : List Nat) (b64 : String → String)
    (queryFields : List QueryField := [.cid]) : CardM ThaiIdCardData := do
  let _ ← issueCommand (apduPerson.SELECT ++ apduPerson.THAI_CARD)
  let requestedFields := createFieldLookup queryFields
  let d ← condField requestedFields.cid (extractCitizenId req)
    (fun d v => { d with cid := some v }) {}
  let d ← condField requestedFields.name (extractThaiName req)
    (fun d v => { d with name := some v }) d
  let d ← condField requestedFields.nameEn (extractEnglishName req)
    (fun d v => { d with nameEn := some v }) d
  let d ← condField requestedFields.dob (extractDateOfBirth req)
    (fun d v => { d with dob := some v }) d
  let d ← condField requestedFields.gender (extractGender req)
    (fun d v => { d with gender := some v }) d
  let d ← condField requestedFields.issuer (extractIssuer req)
    (fun d v => { d with issuer := some v }) d
  let d ← condField requestedFields.issueDate (extractIssueDate req)
    (fun d v => { d with issueDate := some v }) d
  let d ← condField requestedFields.expireDate (extractExpireDate req)
    (fun d v => { d with expireDate := some v }) d
  let d ← condField requestedFields.address (extractAddress req)
    (fun d v => { d with address := some v }) d
  let d ← condField requestedFields.photo (extractPhoto req b64)
    (fun d v => { d with photo := some v }) d
  pure d

end PersonalApplet

namespace NhsoApplet

/-- The nine sequential field reads of `extractNhsoData`, in source order.
Each reads its field with the two-phase protocol and stores the decoded
value. -/
def nhsoFieldActions (req : List Nat) : List (NhsoData → CardM NhsoData) :=
  [fun d => do
    let x ← getData apduNhso.CMD_MAIN_INSCL req
    pure { d with mainInscl := some (jsTrim (jsSliceToNeg 2 (tis620Decode x))) },
   fun d => do
    let x ← getData apduNhso.CMD_SUB_INSCL req
    pure { d with subInscl := some (jsTrim (jsSliceToNeg 2 (tis620Decode x))) },
   fun d => do
    let x ← getData apduNhso.CMD_MAIN_HOSPITAL_NAME req
    pure { d with mainHospitalName := some (jsTrim (jsSliceToNeg 2 (tis620Decode x))) },
   fun d => do
    let x ← getData apduNhso.CMD_SUB_HOSPITAL_NAME req
    pure { d with subHospitalName := some (jsTrim (jsSliceToNeg 2 (tis620Decode x))) },
   fun d => do
    let x ← getData apduNhso.CMD_PAID_TYPE req
    pure { d with paidType := some (hexOfBytes (sliceToNeg 2 x)) },
   fun d => do
    let x ← getData apduNhso.CMD_ISSUE_DATE req
    pure { d with issueDate := some (convertBuddhistDate (jsTrim (bufToString (sliceToNeg 2 x)))) },
   fun d => do
    let x ← getData apduNhso.CMD_EXPIRE_DATE req
    pure { d with expireDate := some (convertBuddhistDate (jsTrim (bufToString (sliceToNeg 2 x)))) },
   fun d => do
    let x ← getData apduNhso.CMD_UPDATE_DATE req
    pure { d with updateDate := some (convertBuddhistDate (jsTrim (bufToString (sliceToNeg 2 x)))) },
   fun d => do
    let x ← getData apduNhso.CMD_CHANGE_HOSPITAL_AMOUNT req
    pure { d with changeHospitalAmount := some (hexOfBytes (sliceToNeg 2 x)) }]

/-- The single `try { field1; …; field9 } catch { warn } return d` of
`extractNhsoData`, compiled to its exception semantics: the first failing
field action ends the loop and the record accumulated so far is returned;
no later action runs. -/
def runNhsoFields (fs : List (NhsoData → CardM NhsoData)) (d : NhsoData) :
    CardM NhsoData :=
  match fs with
  | [] => CardM.pure d
  | f :: rest => fun rs =>
    match f d rs with
    | (.error _, rs', log) => (.ok d, rs', log)
    | (.ok d', rs', log) =>
      let (r, rs'', log') := runNhsoFields rest d' rs'
      (r, rs'', log ++ log')

/-- Source `nhso-applet.ts` `extractNhsoData`. -/
def extractNhsoData (req : List Nat) : CardM NhsoData :=
  runNhsoFields (nhsoFieldActions req) {}

/-- Source `nhso-applet.ts` `getInfo`: SELECT the NHSO applet, then extract; a
SELECT failure is rethrown with the wrapping message. -/
def getInfo (req : List Nat) : CardM NhsoData :=
  CardM.tryCatch
    (do
      let _ ← issueCommand apduNhso.SELECT
      extractNhsoData req)
    (fun e => liftE (.error ("Failed to read NHSO data: " ++ e)))

end NhsoApplet

namespace ThaiIdCardReader

/-- Source `types.ts` `CardReaderOptions`: both options may be omitted (`none`). -/
structure CardReaderOptions where
  exitOnReadError : Option Bool := none
  debug : Option Bool := none
deriving DecidableEq

/-- The resolved options (`Required<CardReaderOptions>`). -/
structure ResolvedOptions where
  exitOnReadError : Bool
  debug : Bool
deriving DecidableEq

/-- Source `thai-id-card-reader.ts` `validateAndSetOptions`:
`exitOnReadError ?? true`, `debug ?? false`. -/
def validateAndSetOptions (options : CardReaderOptions) : ResolvedOptions :=
  { exitOnReadError := options.exitOnReadError.getD true
    debug := options.debug.getD false }

/-- Source `ALL_FIELDS`. -/
def ALL_FIELDS : List QueryField :=
  [.cid, .name, .nameEn, .dob, .gender, .issuer, .issueDate, .expireDate,
   .address, .photo, .nhso, .laserId]

/-- Source `determineRequestCommand`: compare the first 8 hex characters (4 bytes)
of the ATR hex string against `Buffer.from([0x3b, 0x67]).toString('hex')`
(the 4-character string `"3b67"`). -/
def determineRequestCommand (atr : List Nat) : List Nat :=
  if String.mk ((hexChars atr).take 8) = hexOfBytes [0x3b, 0x67] then
    [0x00, 0xc0, 0x00, 0x01]
  else
    [0x00, 0xc0, 0x00, 0x00]

/-- Object-spread merge `{ ...currentData, ...personalData }`: a key absent
(`none`) in the spread-in record keeps the current value. -/
def mergeData (currentData personalData : ThaiIdCardData) : ThaiIdCardData :=
  { cid := personalData.cid.or currentData.cid
    name := personalData.name.or currentData.name
    nameEn := personalData.nameEn.or currentData.nameEn
    dob := personalData.dob.or currentData.dob
    gender := personalData.gender.or currentData.gender
    issuer := personalData.issuer.or currentData.issuer
    issueDate := personalData.issueDate.or currentData.issueDate
    expireDate := personalData.expireDate.or currentData.expireDate
    address := personalData.address.or currentData.address
    photo := personalData.photo.or currentData.photo
    nhso := personalData.nhso.or currentData.nhso
    laserId := personalData.laserId.or currentData.laserId }

/-- Source `extractPersonalData`: personal fields are `ALL_FIELDS` minus
`nhso`/`laserId`; any failure is rethrown with the wrapping message. -/
def extractPersonalData (req : List Nat) (b64 : String → String)
    (currentData : ThaiIdCardData) : CardM ThaiIdCardData :=
  CardM.tryCatch
    (let personalFields := ALL_FIELDS.filter fun field => field ≠ .nhso ∧ field ≠ .laserId
     if personalFields.length > 0 then do
       let personalData ← PersonalApplet.getInfo req b64 personalFields
       pure (mergeData currentData personalData)
     else CardM.pure currentData)
    (fun e => liftE (.error ("Personal data extraction failed: " ++ e)))

/-- Source `extractHealthData`: NHSO data is optional — on failure the current
record is returned unchanged. -/
def extractHealthData (req : List Nat) (currentData : ThaiIdCardData) :
    CardM ThaiIdCardData :=
  CardM.tryCatch
    (do
      let nhsoData ← NhsoApplet.getInfo req
      pure { currentData with nhso := some nhsoData })
    (fun _ => CardM.pure currentData)

/-- Source `extractLaserData`: laser ID is optional — on failure it becomes the
empty string. -/
def extractLaserData (req : List Nat) (currentData : ThaiIdCardData) :
    CardM ThaiIdCardData :=
  CardM.tryCatch
    (do
      let laserId ← getLaser req
      pure { currentData with laserId := some laserId })
    (fun _ => CardM.pure { currentData with laserId := some "" })

/-- Source `extractCardData`: choose the request prefix from the ATR, then run the
three extraction stages in order. -/
def extractCardData (atr : List Nat) (b64 : String → String) :
    CardM ThaiIdCardData := do
  let requestCommand := determineRequestCommand atr
  let d ← extractPersonalData requestCommand b64 {}
  let d ← extractHealthData requestCommand d
  let d ← extractLaserData requestCommand d
  pure d

/-- The notifications the reader emits that matter to the claims, plus the
`process.exit(1)` of `handleReadError` as a terminal pseudo-event. -/
inductive Event where
  | deviceDisconnected
  | cardInserted
  | cardRemoved
  | cardData (d : ThaiIdCardData)
  | cardError (status : Nat) (msg : String)
  | processExit (code : Nat)
deriving DecidableEq

/-- Source `handleReadError`: emit the 500 `card-error` notification, then exit the
process iff `exitOnReadError`. -/
def handleReadError (opts : ResolvedOptions) (e : String) : List Event :=
  [.cardError 500 ("Failed to read Thai National ID Card: " ++ e)] ++
    (if opts.exitOnReadError then [.processExit 1] else [])

/-- Source `processCardData`: on success emit `card-data` (status 200), on any
thrown error defer to `handleReadError`. -/
def processCardDataEvents (opts : ResolvedOptions) (atr : List Nat)
    (b64 : String → String) (rs : Resp) : List Event :=
  match extractCardData atr b64 rs with
  | (.ok d, _, _) => [.cardData d]
  | (.error e, _, _) => handleReadError opts e

/-- The card-level signals a device delivers to the reader.  An insertion
carries the card's ATR and its response behaviour for the read cycle. -/
inductive Sig where
  | ins (atr : List Nat) (rs : Resp)
  | rem
  | disconnect
deriving DecidableEq

/-- Whether a signal is an insertion. -/
def Sig.isIns : Sig → Bool
  | .ins _ _ => true
  | _ => false

/-- The reader state relevant to the card-lifecycle claims: the
`cardInserted` flag, and whether `process.exit` has run. -/
structure ReaderState where
  cardInserted : Bool := false
  exited : Bool := false
deriving DecidableEq

/-- One signal dispatch: `handleCardInserted` (emit `card-inserted`, set the
flag, run `processCardData`), `handleCardRemoved` (emit `card-removed` and
clear the flag only if `cardInserted`), `handleDeviceDisconnected` (emit and
clear the flag).  After `process.exit` nothing further runs. -/
def step (opts : ResolvedOptions) (b64 : String → String)
    (st : ReaderState) (sig : Sig) : ReaderState × List Event :=
  if st.exited then (st, [])
  else
    match sig with
    | .ins atr rs =>
      let evs := processCardDataEvents opts atr b64 rs
      ({ cardInserted := true, exited := evs.contains (.processExit 1) },
       .cardInserted :: evs)
    | .rem =>
      if st.cardInserted then ({ st with cardInserted := false }, [.cardRemoved])
      else (st, [])
    | .disconnect =>
      ({ st with cardInserted := false }, [.deviceDisconnected])

/-- Run a list of signals from a state, collecting all emitted events. -/
def run (opts : ResolvedOptions) (b64 : String → String)
    (st : ReaderState) (sigs : List Sig) : ReaderState × List Event :=
  match sigs with
  | [] => (st, [])
  | sig :: rest =>
    let (st', evs) := step opts b64 st sig
    let (st'', evs') := run opts b64 st' rest
    (st'', evs ++ evs')

end ThaiIdCardReader

/-! ## Spec-side definitions and witness oracles -/

/-- The shared year-subtraction formula of the two converters (spec side):
`YYYY-MM-DD` with `YYYY` the parsed 4-digit year minus 543. -/
def gregorianRender (s : String) : String :=
  toString ((digitsVal (jsSlice s 0 4).data : Int) - 543) ++ "-" ++
    jsSlice s 4 6 ++ "-" ++ jsSlice s 6 8

/-- Spec-side name rule: split the footer-stripped, trimmed decoded string
on `#` into at most 4 components (later tokens ignored, missing tokens
empty), space-join the non-empty components, trim. -/
def fullnameSpec (s : String) : String :=
  jsTrim (jsJoin " " ((((jsSplit '#' s).take 4).map jsTrim).filter
    fun part => part.length > 0))

/-- The response queue of a photo read: per segment, the probe response then
the payload-plus-footer response. -/
def segResponses (segs : List (List Nat × List Nat × List Nat)) : Resp :=
  segs.flatMap fun s => [some s.1, some (s.2.1 ++ s.2.2)]

/-! Concrete card oracles used by the witness theorems: a full
successful personal read (59 responses), an NHSO applet run, a laser
run, and projections naming the values they produce. -/

def wOkResp : Option (List Nat) := some [0x41, 0x90, 0x00]
def wDateResp : Option (List Nat) :=
  some [0x32, 0x35, 0x36, 0x38, 0x30, 0x33, 0x31, 0x35, 0x90, 0x00]
def wPersonalRs : Resp :=
  [wOkResp, wOkResp, wOkResp, wOkResp, wOkResp, wOkResp, wOkResp, wOkResp,
   wDateResp, wOkResp, wOkResp, wOkResp, wOkResp, wOkResp, wDateResp, wOkResp,
   wDateResp, wOkResp, wOkResp] ++ List.replicate 40 wOkResp
def wNhsoRs : Resp := List.replicate 19 wOkResp
def wLaserRs : Resp := List.replicate 3 wOkResp
def exceptOk {ε α : Type} (dflt : α) : Except ε α → α
  | .ok a => a
  | .error _ => dflt
def exceptErr {ε α : Type} (dflt : ε) : Except ε α → ε
  | .error e => e
  | .ok _ => dflt
def wRsB : Resp := wPersonalRs ++ [none] ++ wLaserRs
def wPB := ThaiIdCardReader.extractPersonalData [0x00, 0xc0, 0x00, 0x00] id {} wRsB
def wNB := NhsoApplet.getInfo [0x00, 0xc0, 0x00, 0x00] wPB.2.1
def wLB := getLaser [0x00, 0xc0, 0x00, 0x00] wNB.2.1
def wD1B : ThaiIdCardData := exceptOk {} wPB.1
def wEB : String := exceptErr "" wNB.1
def wSB : String := exceptOk "" wLB.1
def wRsC : Resp := wPersonalRs ++ wNhsoRs
def wPC := ThaiIdCardReader.extractPersonalData [0x00, 0xc0, 0x00, 0x00] id {} wRsC
def wNC := NhsoApplet.getInfo [0x00, 0xc0, 0x00, 0x00] wPC.2.1
def wLC := getLaser [0x00, 0xc0, 0x00, 0x00] wNC.2.1
def wD1C : ThaiIdCardData := exceptOk {} wPC.1
def wNdC : NhsoData := exceptOk {} wNC.1
def wEC : String := exceptErr "" wLC.1

/-! ## Helper lemmas -/

/-- Lemma: `parseInt` on a nonempty all-digit string yields its decimal value. -/
theorem jsParseIntDec_of_digits (s : String) (h1 : s.data ≠ [])
    (h2 : ∀ c ∈ s.data, c.isDigit) :
    jsParseIntDec s = some (digitsVal s.data) := by
  obtain ⟨c, cs, hc⟩ : ∃ c cs, s.data = c :: cs := by
    cases h : s.data with
    | nil => exact absurd h h1
    | cons c cs => exact ⟨c, cs, rfl⟩
  have hcd : c.isDigit := h2 c (by rw [hc]; exact List.mem_cons_self ..)
  have hsp : ¬(c = ' ') := by rintro rfl; exact absurd hcd (by decide)
  have hmn : ¬(c = '-') := by rintro rfl; exact absurd hcd (by decide)
  have hpl : ¬(c = '+') := by rintro rfl; exact absurd hcd (by decide)
  have hall : (c :: cs).takeWhile Char.isDigit = c :: cs := by
    rw [List.takeWhile_eq_self_iff]
    intro x hx
    exact h2 x (by rw [hc]; exact hx)
  unfold jsParseIntDec
  rw [hc]
  simp [hsp, hmn, hpl]
  exact ⟨hcd, by rw [hall]⟩

/-! ## Claims -/

/-- C1: the claim says every ATR beginning `3b 67` selects the alternate
request prefix.  The code compares the first 8 hex characters (4 bytes) of
the ATR against the 4-character pattern `"3b67"`, so a real ATR that begins
`3b 67` but is longer than 2 bytes selects the DEFAULT prefix; only the
degenerate exactly-2-byte ATR matches. -/
theorem determineRequestCommand_first_two_bytes_bug :
    List.take 2 [0x3b, 0x67, 0x00, 0x00] = [0x3b, 0x67] ∧
    ThaiIdCardReader.determineRequestCommand [0x3b, 0x67, 0x00, 0x00] =
      [0x00, 0xc0, 0x00, 0x00] ∧
    ThaiIdCardReader.determineRequestCommand [0x3b, 0x67] =
      [0x00, 0xc0, 0x00, 0x01] := by
  refine ⟨rfl, ?_, ?_⟩ <;> decide

/-- C2: on every 8-character all-digit date string, both converters return
the year-minus-543 rendering with month and day substrings unchanged, and
hence agree. -/
theorem convertBuddhist_agree (s : String) (h8 : s.length = 8)
    (hd : ∀ c ∈ s.data, c.isDigit) :
    convertBuddhistToGregorianDate s = .ok (gregorianRender s) ∧
    convertBuddhistDate s = gregorianRender s := by
  have hd8 : s.data.length = 8 := h8
  have hp : jsParseIntDec (jsSlice s 0 4) = some (digitsVal (jsSlice s 0 4).data) := by
    apply jsParseIntDec_of_digits
    · show (s.data.take 4).drop 0 ≠ []
      intro h
      have := congrArg List.length h
      simp [hd8] at this
    · intro c hc
      refine hd c (List.take_subset 4 _ ?_)
      simpa using hc
  constructor
  · unfold convertBuddhistToGregorianDate
    rw [if_neg (by simp [h8])]
    simp [hp, numRender, gregorianRender]
  · unfold convertBuddhistDate
    rw [if_neg ?_]
    · simp [hp, numRender, gregorianRender]
    · rintro (rfl | h)
      · simp at h8
      · exact h h8

/-- C2 witness: the claim's example `"25680315" → "2025-03-15"`. -/
theorem convertBuddhist_agree_witness :
    convertBuddhistToGregorianDate "25680315" = .ok "2025-03-15" ∧
    convertBuddhistDate "25680315" = "2025-03-15" := by
  have h := convertBuddhist_agree "25680315" (by decide) (by decide)
  have hr : gregorianRender "25680315" = "2025-03-15" := by decide
  exact ⟨by rw [h.1, hr], by rw [h.2, hr]⟩

/-- C6: on every input whose length is not 8, the personal-applet converter
throws while the NHSO converter returns the empty string. -/
theorem convert_malformed_policies (s : String) (h : s.length ≠ 8) :
    convertBuddhistToGregorianDate s =
      .error ("Invalid date format: " ++ s ++ ". Expected YYYYMMDD.") ∧
    convertBuddhistDate s = "" := by
  constructor
  · unfold convertBuddhistToGregorianDate
    rw [if_pos h]
  · unfold convertBuddhistDate
    rw [if_pos (Or.inr h)]

/-- C6 witness: a 7-character input. -/
theorem convert_malformed_policies_witness :
    convertBuddhistToGregorianDate "2568031" =
      .error "Invalid date format: 2568031. Expected YYYYMMDD." ∧
    convertBuddhistDate "2568031" = "" :=
  convert_malformed_policies "2568031" (by decide)

@[simp] theorem jsTrim_empty : jsTrim "" = "" := rfl

@[simp] theorem emptyStr_length : ("" : String).length = 0 := rfl

/-- C9: `parseNameComponents` realises the spec-side name rule on every
decoded input, and on the claim's example (with two decoded footer
characters `ZZ` appended) yields `"นาย สมชาย ใจดี"`. -/
theorem parseNameComponents_fullname (decodedData : String) :
    (parseNameComponents decodedData).fullname =
      fullnameSpec (jsTrim (jsSliceToNeg 2 decodedData)) ∧
    (parseNameComponents "นาย#สมชาย#ใจดี#ZZ").fullname = "นาย สมชาย ใจดี" := by
  constructor
  · unfold parseNameComponents fullnameSpec
    generalize jsSplit '#' (jsTrim (jsSliceToNeg 2 decodedData)) = l
    rcases l with _ | ⟨a, _ | ⟨b, _ | ⟨c, _ | ⟨d, rest⟩⟩⟩⟩ <;>
      simp [List.filter_cons]
  · decide

/-! ## Monad computation lemmas -/

theorem bind_apply_ok {α β : Type} {x : CardM α} {f : α → CardM β} {rs rs1 : Resp}
    {a : α} {l1 : List (List Nat)} (h : x rs = (.ok a, rs1, l1)) {r : Except String β}
    {rs2 : Resp} {l2 : List (List Nat)} (h2 : f a rs1 = (r, rs2, l2)) :
    (x >>= f) rs = (r, rs2, l1 ++ l2) := by
  show CardM.bind x f rs = _
  unfold CardM.bind
  rw [h]
  dsimp only
  rw [h2]

theorem bind_apply_error {α β : Type} {x : CardM α} {f : α → CardM β} {rs rs1 : Resp}
    {e : String} {l1 : List (List Nat)} (h : x rs = (.error e, rs1, l1)) :
    (x >>= f) rs = (.error e, rs1, l1) := by
  show CardM.bind x f rs = _
  unfold CardM.bind
  rw [h]

theorem tryCatch_apply_ok {α : Type} {x : CardM α} {h : String → CardM α} {rs rs1 : Resp}
    {a : α} {l1 : List (List Nat)} (hx : x rs = (.ok a, rs1, l1)) :
    CardM.tryCatch x h rs = (.ok a, rs1, l1) := by
  unfold CardM.tryCatch
  rw [hx]

theorem tryCatch_apply_error {α : Type} {x : CardM α} {h : String → CardM α}
    {rs rs1 : Resp} {e : String} {l1 : List (List Nat)} (hx : x rs = (.error e, rs1, l1))
    {r : Except String α × Resp × List (List Nat)} (hh : h e rs1 = r) :
    CardM.tryCatch x h rs = (r.1, r.2.1, l1 ++ r.2.2) := by
  unfold CardM.tryCatch
  rw [hx]
  dsimp only
  rw [hh]

theorem pure_apply {α : Type} (a : α) (rs : Resp) :
    (pure a : CardM α) rs = (.ok a, rs, []) := rfl

/-- Lemma: `runNhsoFields` never propagates an error: it always resolves. -/
theorem runNhsoFields_resolves (fs : List (NhsoData → CardM NhsoData))
    (d : NhsoData) (rs : Resp) :
    ∃ d' rs' log, NhsoApplet.runNhsoFields fs d rs = (.ok d', rs', log) := by
  induction fs generalizing d rs with
  | nil => exact ⟨d, rs, [], rfl⟩
  | cons f fs ih =>
    cases hr : f d rs with
    | mk r rest =>
      cases r with
      | error e =>
        exact ⟨d, rest.1, rest.2, by simp [NhsoApplet.runNhsoFields, hr]⟩
      | ok d1 =>
        obtain ⟨d', rs', log, hrec⟩ := ih d1 rest.1
        exact ⟨d', rs', rest.2 ++ log, by simp [NhsoApplet.runNhsoFields, hr, hrec]⟩

/-- C3 counterexample: SELECT succeeds, the first field (`mainInscl`,
payload `"CD"` after the two-phase read) succeeds, the second field's data
command fails — and although the queue still holds 14 successful responses
(enough for every remaining field), `getInfo` resolves with ONLY the first
field: `mainHospitalName` is omitted even though its read would have
succeeded, so extraction does not continue past the failed field. -/
theorem nhso_getInfo_stops_at_first_failure :
    (NhsoApplet.getInfo [0x00, 0xc0, 0x00, 0x00]
        ([some [0x90, 0x00], some [0x41, 0x90, 0x00], some [0x43, 0x44, 0x90, 0x00],
          some [0x45, 0x90, 0x00], none] ++
          List.replicate 14 (some [0x46, 0x90, 0x00]))).1 =
      .ok { mainInscl := some "CD" } ∧
    ({ mainInscl := some "CD" } : NhsoData).subInscl = none ∧
    ({ mainInscl := some "CD" } : NhsoData).mainHospitalName = none ∧
    (NhsoApplet.getInfo [0x00, 0xc0, 0x00, 0x00]
        ([some [0x90, 0x00], some [0x41, 0x90, 0x00], some [0x43, 0x44, 0x90, 0x00],
          some [0x45, 0x90, 0x00], none] ++
          List.replicate 14 (some [0x46, 0x90, 0x00]))).2.1 =
      List.replicate 14 (some [0x46, 0x90, 0x00]) := by
  refine ⟨by decide, rfl, rfl, by decide⟩

/-- C3 amended: after a successful applet SELECT, `getInfo` always resolves
without propagating an exception, and a failing field read ends the
extraction loop immediately — the record accumulated before the failure is
returned and no later field action runs. -/
theorem nhso_getInfo_partial (req : List Nat) (resp : List Nat) (rest : Resp)
    (f : NhsoData → CardM NhsoData) (fs : List (NhsoData → CardM NhsoData))
    (d : NhsoData) (rs rs' : Resp) (e : String) (log : List (List Nat))
    (hfail : f d rs = (.error e, rs', log)) :
    (∃ d' rs2 log2,
      NhsoApplet.getInfo req (some resp :: rest) = (.ok d', rs2, log2)) ∧
    NhsoApplet.runNhsoFields (f :: fs) d rs = (.ok d, rs', log) := by
  constructor
  · obtain ⟨d', rs2, log2, hrun⟩ :=
      runNhsoFields_resolves (NhsoApplet.nhsoFieldActions req) {} rest
    refine ⟨d', rs2, [apduNhso.SELECT] ++ log2, ?_⟩
    unfold NhsoApplet.getInfo
    apply tryCatch_apply_ok
    apply bind_apply_ok
      (show issueCommand apduNhso.SELECT (some resp :: rest) =
        (.ok resp, rest, [apduNhso.SELECT]) from rfl)
    show NhsoApplet.extractNhsoData req rest = _
    unfold NhsoApplet.extractNhsoData
    exact hrun
  · unfold NhsoApplet.runNhsoFields
    rw [hfail]

/-- C3 witness: a concrete run in which SELECT succeeds and the very first
field read fails. -/
theorem nhso_getInfo_partial_witness :
    ((fun d => do
        let x ← getData apduNhso.CMD_MAIN_INSCL [0x00, 0xc0, 0x00, 0x00]
        pure { d with mainInscl := some (jsTrim (jsSliceToNeg 2 (tis620Decode x))) }) :
      NhsoData → CardM NhsoData) {} [none] = (.error "command failed", [], [apduNhso.CMD_MAIN_INSCL]) ∧
    (∃ d' rs2 log2,
      NhsoApplet.getInfo [0x00, 0xc0, 0x00, 0x00] (some [0x90, 0x00] :: [none]) =
        (.ok d', rs2, log2)) ∧
    NhsoApplet.runNhsoFields
      ((fun d => do
        let x ← getData apduNhso.CMD_MAIN_INSCL [0x00, 0xc0, 0x00, 0x00]
        pure { d with mainInscl := some (jsTrim (jsSliceToNeg 2 (tis620Decode x))) }) :: [])
      {} [none] = (.ok {}, [], [apduNhso.CMD_MAIN_INSCL]) := by
  have h := nhso_getInfo_partial [0x00, 0xc0, 0x00, 0x00] [0x90, 0x00] [none]
    (fun d => do
      let x ← getData apduNhso.CMD_MAIN_INSCL [0x00, 0xc0, 0x00, 0x00]
      pure { d with mainInscl := some (jsTrim (jsSliceToNeg 2 (tis620Decode x))) })
    [] {} [none] [] "command failed" [apduNhso.CMD_MAIN_INSCL] (by decide)
  exact ⟨by decide, h.1, h.2⟩

/-- C7 counterexample: calling `getInfo` without an explicit field set, on a
card that answers every issued command, returns a record whose `name` (and
every other non-`cid` personal field) is absent — the default field set is
`['cid']`, not all personal fields. -/
theorem getInfo_default_omits_fields :
    ((PersonalApplet.getInfo [0x00, 0xc0, 0x00, 0x00] id)
        [some [0x90, 0x00], some [0x90, 0x00], some [0x31, 0x32, 0x33, 0x90, 0x00]]).1 =
      .ok { cid := some "123" } ∧
    ({ cid := some "123" } : ThaiIdCardData).name = none ∧
    ({ cid := some "123" } : ThaiIdCardData).photo = none := by
  refine ⟨by decide, rfl, rfl⟩

/-- C7 amended: the default field set of `getInfo` is `['cid']`: called
without an explicit field set, it issues only the SELECT and the `cid`
two-phase read, and the returned record contains exactly the `cid` entry. -/
theorem getInfo_default_cid_only (req : List Nat) (b64 : String → String)
    (selResp probe cidData : List Nat) (rest : Resp) :
    (PersonalApplet.getInfo req b64)
        (some selResp :: some probe :: some cidData :: rest) =
      (.ok { cid := some (jsTrim (bufToString (sliceToNeg 2 cidData))) },
       rest,
       [apduPerson.SELECT ++ apduPerson.THAI_CARD, apduPerson.CMD_CID,
        req ++ [0x0d]]) := by
  rfl

/-! ## Photo reassembly (C8) -/

theorem mk_append (xs ys : List Char) :
    String.mk xs ++ String.mk ys = String.mk (xs ++ ys) := rfl

theorem hexChars_append (a b : List Nat) :
    hexChars (a ++ b) = hexChars a ++ hexChars b := by
  simp [hexChars]

theorem hexChars_length (l : List Nat) : (hexChars l).length = 2 * l.length := by
  induction l with
  | nil => rfl
  | cons b bs ih =>
    simp [hexChars, hexByteChars] at ih ⊢
    omega

theorem sliceToNeg_append (xs ys : List α) (h : ys.length = n) :
    sliceToNeg n (xs ++ ys) = xs := by
  unfold sliceToNeg
  simp [h]

/-- Stripping the last 4 hex characters of a payload-plus-2-byte-footer
response leaves exactly the payload's hex string. -/
theorem hex_strip_footer (s f : List Nat) (hf : f.length = 2) :
    String.mk (sliceToNeg 4 (hexChars (s ++ f))) = hexOfBytes s := by
  rw [hexChars_append, sliceToNeg_append]
  · rfl
  · rw [hexChars_length, hf]

theorem jsJoin_hexOfBytes (ls : List (List Nat)) :
    jsJoin "" (ls.map hexOfBytes) = hexOfBytes ls.flatten := by
  induction ls with
  | nil => rfl
  | cons x rest ih =>
    cases rest with
    | nil => simp [jsJoin, hexOfBytes]
    | cons y t =>
      show hexOfBytes x ++ "" ++ jsJoin "" ((y :: t).map hexOfBytes) = _
      rw [ih]
      show hexOfBytes x ++ "" ++ hexOfBytes (y :: t).flatten = _
      rw [String.append_empty]
      show String.mk (hexChars x) ++ String.mk (hexChars (y :: t).flatten) = _
      rw [mk_append, ← hexChars_append]
      rfl

/-- Lemma: `photoLoop` on a structurally matching response queue: every segment's
two commands are issued in order, each response loses exactly its 2-byte
footer, and the collected parts are the payload hex strings in order. -/
theorem photoLoop_spec (cmds : List (List Nat)) (req : List Nat)
    (segs : List (List Nat × List Nat × List Nat)) (rest : Resp)
    (hlen : cmds.length = segs.length)
    (hfoot : ∀ s ∈ segs, s.2.2.length = 2) :
    PersonalApplet.photoLoop cmds req (segResponses segs ++ rest) =
      (.ok (segs.map fun s => hexOfBytes s.2.1), rest,
       cmds.flatMap fun c => [c, req ++ c.drop (c.length - 1)]) := by
  induction cmds generalizing segs with
  | nil =>
    cases segs with
    | nil => rfl
    | cons s ss => simp at hlen
  | cons c cs ih =>
    cases segs with
    | nil => simp at hlen
    | cons s ss =>
      obtain ⟨p, spay, sfoot⟩ := s
      have hq : segResponses ((p, spay, sfoot) :: ss) ++ rest =
          some p :: some (spay ++ sfoot) :: (segResponses ss ++ rest) := by
        simp [segResponses]
      have hget : getData c req (segResponses ((p, spay, sfoot) :: ss) ++ rest) =
          (.ok (spay ++ sfoot), segResponses ss ++ rest,
           [c, req ++ c.drop (c.length - 1)]) := by
        rw [hq]
        rfl
      have hrec := ih ss (by simpa using hlen)
        (fun s hs => hfoot s (List.mem_cons_of_mem _ hs))
      have hstep :
          PersonalApplet.photoLoop (c :: cs) req
              (segResponses ((p, spay, sfoot) :: ss) ++ rest) =
            (.ok (String.mk (sliceToNeg 4 (hexChars (spay ++ sfoot))) ::
                ss.map fun s => hexOfBytes s.2.1),
             rest,
             [c, req ++ c.drop (c.length - 1)] ++
               ((cs.flatMap fun c => [c, req ++ c.drop (c.length - 1)]) ++ [])) :=
        bind_apply_ok hget (bind_apply_ok hrec rfl)
      rw [hstep, hex_strip_footer spay sfoot (hfoot _ (List.mem_cons_self ..))]
      simp

/-- C8: `extractPhoto` issues the 20 photo commands in catalogue order (each
followed by its request-prefixed re-read), strips exactly the trailing 2
status bytes from each segment before concatenation, and hands the external
image encoder the hex of the in-order concatenation `S1‖…‖S20` of the
stripped payloads — so the result is a function of the ordered segment
contents alone. -/
theorem extractPhoto_reassembly (req : List Nat) (b64 : String → String)
    (segs : List (List Nat × List Nat × List Nat)) (rest : Resp)
    (hlen : segs.length = 20)
    (hfoot : ∀ s ∈ segs, s.2.2.length = 2) :
    PersonalApplet.extractPhoto req b64 (segResponses segs ++ rest) =
      (.ok (b64 (hexOfBytes ((segs.map fun s => s.2.1).flatten))), rest,
       PersonalApplet.PHOTO_COMMANDS.flatMap fun c => [c, req ++ [0xff]]) := by
  have hloop := photoLoop_spec PersonalApplet.PHOTO_COMMANDS req segs rest
    (by rw [hlen]; rfl) hfoot
  have hstep :
      PersonalApplet.extractPhoto req b64 (segResponses segs ++ rest) =
        (.ok (b64 (jsJoin "" (segs.map fun s => hexOfBytes s.2.1))),
         rest,
         (PersonalApplet.PHOTO_COMMANDS.flatMap
           fun c => [c, req ++ c.drop (c.length - 1)]) ++ []) :=
    bind_apply_ok hloop rfl
  rw [hstep]
  rw [show (segs.map fun s => hexOfBytes s.2.1) =
    (segs.map fun s => s.2.1).map hexOfBytes by simp]
  rw [jsJoin_hexOfBytes]
  rfl

/-- C8 witness: 20 segments with payloads `[0], [1], …, [19]`, each with a
2-byte footer; reassembly is the ordered hex concatenation. -/
theorem extractPhoto_reassembly_witness :
    (PersonalApplet.extractPhoto [0x00, 0xc0, 0x00, 0x00] id
        (segResponses ((List.range 20).map fun i => ([0x61], [i], [0x90, 0x00])) ++ [])).1 =
      .ok "000102030405060708090a0b0c0d0e0f10111213" := by
  have h := extractPhoto_reassembly [0x00, 0xc0, 0x00, 0x00] id
    ((List.range 20).map fun i => ([0x61], [i], [0x90, 0x00])) []
    (by decide) (by decide)
  rw [h]
  decide

/-! ## Card lifecycle (C5) -/

/-- A read cycle only emits data/error/exit notifications, never
`card-removed`. -/
theorem processCardDataEvents_no_removed (opts : ThaiIdCardReader.ResolvedOptions)
    (atr : List Nat) (b64 : String → String) (rs : Resp) :
    ThaiIdCardReader.Event.cardRemoved ∉
      ThaiIdCardReader.processCardDataEvents opts atr b64 rs := by
  unfold ThaiIdCardReader.processCardDataEvents
  split
  · simp
  · unfold ThaiIdCardReader.handleReadError
    split <;> simp

/-- From a state without a seated card, a trace without insertion signals
never emits `card-removed`. -/
theorem run_no_removed (opts : ThaiIdCardReader.ResolvedOptions)
    (b64 : String → String) (sigs : List ThaiIdCardReader.Sig)
    (st : ThaiIdCardReader.ReaderState) (hst : st.cardInserted = false)
    (hno : ∀ sig ∈ sigs, sig.isIns = false) :
    ThaiIdCardReader.Event.cardRemoved ∉
      (ThaiIdCardReader.run opts b64 st sigs).2 := by
  induction sigs generalizing st with
  | nil => simp [ThaiIdCardReader.run]
  | cons sig rest ih =>
    have hrest : ∀ s ∈ rest, s.isIns = false :=
      fun s hs => hno s (List.mem_cons_of_mem _ hs)
    unfold ThaiIdCardReader.run
    cases sig with
    | ins atr rs =>
      exact absurd (hno _ (List.mem_cons_self ..)) (by simp [ThaiIdCardReader.Sig.isIns])
    | rem =>
      by_cases hex : st.exited
      · simp only [ThaiIdCardReader.step, hex, ite_true]
        simpa using ih st hst hrest
      · simp only [ThaiIdCardReader.step, hex, ite_false, hst]
        simpa using ih st hst hrest
    | disconnect =>
      by_cases hex : st.exited
      · simp only [ThaiIdCardReader.step, hex, ite_true]
        simpa using ih st hst hrest
      · have hex0 : st.exited = false := by simpa using hex
        simp only [ThaiIdCardReader.step, hex, ite_false]
        have := ih { st with cardInserted := false } rfl hrest
        simpa [hex0] using this

/-- C5: a `card-removed` notification is emitted by a dispatch step only for
a removal signal arriving while `cardInserted` is true, and that step clears
the flag; and from the initial state, a trace containing no insertion signal
(in particular a removal signal arriving before any insertion) produces zero
`card-removed` notifications. -/
theorem cardRemoved_only_after_insertion
    (opts : ThaiIdCardReader.ResolvedOptions) (b64 : String → String) :
    (∀ st sig, ThaiIdCardReader.Event.cardRemoved ∈
        (ThaiIdCardReader.step opts b64 st sig).2 →
      st.cardInserted = true ∧ sig = ThaiIdCardReader.Sig.rem ∧
        (ThaiIdCardReader.step opts b64 st sig).1.cardInserted = false) ∧
    (∀ sigs : List ThaiIdCardReader.Sig, (∀ sig ∈ sigs, sig.isIns = false) →
      ThaiIdCardReader.Event.cardRemoved ∉
        (ThaiIdCardReader.run opts b64 {} sigs).2) := by
  constructor
  · intro st sig hmem
    by_cases hex : st.exited
    · simp [ThaiIdCardReader.step, hex] at hmem
    · cases sig with
      | ins atr rs =>
        simp only [ThaiIdCardReader.step, hex, ite_false] at hmem
        rcases List.mem_cons.mp hmem with h | h
        · exact absurd h (by simp)
        · exact absurd h (processCardDataEvents_no_removed opts atr b64 rs)
      | rem =>
        by_cases hin : st.cardInserted
        · refine ⟨hin, rfl, ?_⟩
          simp [ThaiIdCardReader.step, hex, hin]
        · simp [ThaiIdCardReader.step, hex, hin] at hmem
      | disconnect =>
        simp [ThaiIdCardReader.step, hex] at hmem
  · intro sigs hno
    exact run_no_removed opts b64 sigs {} rfl hno

/-- C5 witness: a removal while a card is seated does emit (and clear the
flag), and activation followed immediately by two removal signals emits zero
`card-removed` notifications. -/
theorem cardRemoved_only_after_insertion_witness :
    ({ cardInserted := true, exited := false } :
        ThaiIdCardReader.ReaderState).cardInserted = true ∧
    ThaiIdCardReader.Event.cardRemoved ∉
      (ThaiIdCardReader.run ⟨true, false⟩ id {}
        [ThaiIdCardReader.Sig.rem, ThaiIdCardReader.Sig.rem]).2 := by
  have h := cardRemoved_only_after_insertion ⟨true, false⟩ id
  exact ⟨(h.1 { cardInserted := true, exited := false }
            ThaiIdCardReader.Sig.rem (by decide)).1,
         h.2 [ThaiIdCardReader.Sig.rem, ThaiIdCardReader.Sig.rem] (by decide)⟩

/-! ## Inversion lemmas for the read-cycle claims -/

theorem bind_inv_ok {α β : Type} {x : CardM α} {f : α → CardM β} {rs rs2 : Resp}
    {b : β} {l : List (List Nat)} (h : (x >>= f) rs = (.ok b, rs2, l)) :
    ∃ a rs1 l1 l2, x rs = (.ok a, rs1, l1) ∧ f a rs1 = (.ok b, rs2, l2) ∧
      l = l1 ++ l2 := by
  have h' : CardM.bind x f rs = (.ok b, rs2, l) := h
  unfold CardM.bind at h'
  cases hx : x rs with
  | mk r p =>
    obtain ⟨rs1, l1⟩ := p
    rw [hx] at h'
    cases r with
    | error e => simp at h'
    | ok a =>
      dsimp only at h'
      cases hf : f a rs1 with
      | mk r2 p2 =>
        obtain ⟨rs2', l2⟩ := p2
        rw [hf] at h'
        cases r2 with
        | error e => simp at h'
        | ok b' =>
          obtain ⟨hb, hrs, hl⟩ : b' = b ∧ rs2' = rs2 ∧ l1 ++ l2 = l := by
            simpa [Prod.ext_iff] using h'
          subst hb
          subst hrs
          exact ⟨a, rs1, l1, l2, rfl, hf, hl.symm⟩

theorem pure_inv {α : Type} {a b : α} {rs rs' : Resp} {l : List (List Nat)}
    (h : (pure a : CardM α) rs = (.ok b, rs', l)) : b = a := by
  have h' : ((.ok a : Except String α), rs, ([] : List (List Nat))) =
      (.ok b, rs', l) := h
  obtain ⟨hb, -, -⟩ : a = b ∧ rs = rs' ∧ ([] : List (List Nat)) = l := by
    simpa [Prod.ext_iff] using h'
  exact hb.symm

theorem tryCatch_rethrow_inv_ok {α : Type} {x : CardM α} {g : String → String}
    {rs : Resp} {a : α} {rs' : Resp} {l : List (List Nat)}
    (hc : CardM.tryCatch x (fun e => liftE (.error (g e))) rs = (.ok a, rs', l)) :
    x rs = (.ok a, rs', l) := by
  unfold CardM.tryCatch at hc
  cases hx : x rs with
  | mk r p =>
    rw [hx] at hc
    cases r with
    | error e =>
      dsimp only [liftE] at hc
      simp [Prod.ext_iff] at hc
    | ok b => exact hc

/-- A conditional personal-field step never touches `nhso` or `laserId`. -/
theorem condField_pres {c : Bool} {g : CardM String}
    {set : ThaiIdCardData → String → ThaiIdCardData} {d : ThaiIdCardData}
    {rs rs' : Resp} {d' : ThaiIdCardData} {l : List (List Nat)}
    (h : PersonalApplet.condField c g set d rs = (.ok d', rs', l))
    (hset : ∀ d v, (set d v).nhso = d.nhso ∧ (set d v).laserId = d.laserId) :
    d'.nhso = d.nhso ∧ d'.laserId = d.laserId := by
  unfold PersonalApplet.condField at h
  by_cases hc : c
  · rw [if_pos hc] at h
    obtain ⟨v, rs1, l1, l2, hg, hp, hw⟩ := bind_inv_ok h
    have := pure_inv hp
    subst this
    exact hset d v
  · rw [if_neg hc] at h
    have := pure_inv h
    subst this
    exact ⟨rfl, rfl⟩

/-- Lemma: `PersonalApplet.getInfo` never sets `nhso` or `laserId`. -/
theorem personalGetInfo_clean {req : List Nat} {b64 : String → String}
    {fields : List QueryField} {rs rs' : Resp} {d : ThaiIdCardData}
    {l : List (List Nat)}
    (h : PersonalApplet.getInfo req b64 fields rs = (.ok d, rs', l)) :
    d.nhso = none ∧ d.laserId = none := by
  unfold PersonalApplet.getInfo at h
  obtain ⟨a0, t0, u0, v0, q0, g0, w0⟩ := bind_inv_ok h
  obtain ⟨d1, t1, u1, v1, h1, g1, w1⟩ := bind_inv_ok g0
  obtain ⟨d2, t2, u2, v2, h2, g2, w2⟩ := bind_inv_ok g1
  obtain ⟨d3, t3, u3, v3, h3, g3, w3⟩ := bind_inv_ok g2
  obtain ⟨d4, t4, u4, v4, h4, g4, w4⟩ := bind_inv_ok g3
  obtain ⟨d5, t5, u5, v5, h5, g5, w5⟩ := bind_inv_ok g4
  obtain ⟨d6, t6, u6, v6, h6, g6, w6⟩ := bind_inv_ok g5
  obtain ⟨d7, t7, u7, v7, h7, g7, w7⟩ := bind_inv_ok g6
  obtain ⟨d8, t8, u8, v8, h8, g8, w8⟩ := bind_inv_ok g7
  obtain ⟨d9, t9, u9, v9, h9, g9, w9⟩ := bind_inv_ok g8
  obtain ⟨d10, t10, u10, v10, h10, g10, w10⟩ := bind_inv_ok g9
  have hfin := pure_inv g10
  subst hfin
  have p1 := condField_pres h1 (fun d v => ⟨rfl, rfl⟩)
  have p2 := condField_pres h2 (fun d v => ⟨rfl, rfl⟩)
  have p3 := condField_pres h3 (fun d v => ⟨rfl, rfl⟩)
  have p4 := condField_pres h4 (fun d v => ⟨rfl, rfl⟩)
  have p5 := condField_pres h5 (fun d v => ⟨rfl, rfl⟩)
  have p6 := condField_pres h6 (fun d v => ⟨rfl, rfl⟩)
  have p7 := condField_pres h7 (fun d v => ⟨rfl, rfl⟩)
  have p8 := condField_pres h8 (fun d v => ⟨rfl, rfl⟩)
  have p9 := condField_pres h9 (fun d v => ⟨rfl, rfl⟩)
  have p10 := condField_pres h10 (fun d v => ⟨rfl, rfl⟩)
  refine ⟨?_, ?_⟩
  · rw [p10.1, p9.1, p8.1, p7.1, p6.1, p5.1, p4.1, p3.1, p2.1, p1.1]
  · rw [p10.2, p9.2, p8.2, p7.2, p6.2, p5.2, p4.2, p3.2, p2.2, p1.2]

/-- Lemma: `extractPersonalData` starting from the empty record yields a record
whose `nhso` and `laserId` are absent. -/
theorem extractPersonalData_clean {req : List Nat} {b64 : String → String}
    {rs rs' : Resp} {d : ThaiIdCardData} {l : List (List Nat)}
    (h : ThaiIdCardReader.extractPersonalData req b64 {} rs = (.ok d, rs', l)) :
    d.nhso = none ∧ d.laserId = none := by
  unfold ThaiIdCardReader.extractPersonalData at h
  have h' := tryCatch_rethrow_inv_ok h
  rw [if_pos (by decide)] at h'
  obtain ⟨pd, rs1, u1, v1, hg, hp, w1⟩ := bind_inv_ok h'
  have := pure_inv hp
  subst this
  have hc := personalGetInfo_clean hg
  constructor
  · show (pd.nhso.or none) = none
    rw [hc.1]
    rfl
  · show (pd.laserId.or none) = none
    rw [hc.2]
    rfl

/-- C4: per-cycle error policy.  (a) If personal-data extraction throws, the
cycle emits the 500 `card-error` notification (plus the configured process
exit) and no `card-data` notification.  (b) If personal data succeeds but
insurance extraction fails while the laser read succeeds, `card-data` is
still emitted and its `nhso` field is absent.  (c) If personal and insurance
succeed but the laser read fails, `card-data` is still emitted with
`laserId` equal to the empty string. -/
theorem readCycle_error_policy (opts : ThaiIdCardReader.ResolvedOptions)
    (atr : List Nat) (b64 : String → String) (rs : Resp) :
    (∀ e rs1 l1,
      ThaiIdCardReader.extractPersonalData
          (ThaiIdCardReader.determineRequestCommand atr) b64 {} rs =
        (.error e, rs1, l1) →
      ThaiIdCardReader.processCardDataEvents opts atr b64 rs =
        ThaiIdCardReader.Event.cardError 500
            ("Failed to read Thai National ID Card: " ++ e) ::
          (if opts.exitOnReadError then [ThaiIdCardReader.Event.processExit 1]
           else []) ∧
      ∀ d, ThaiIdCardReader.Event.cardData d ∉
        ThaiIdCardReader.processCardDataEvents opts atr b64 rs) ∧
    (∀ d1 rs1 l1 e rs2 l2 s rs3 l3,
      ThaiIdCardReader.extractPersonalData
          (ThaiIdCardReader.determineRequestCommand atr) b64 {} rs =
        (.ok d1, rs1, l1) →
      NhsoApplet.getInfo (ThaiIdCardReader.determineRequestCommand atr) rs1 =
        (.error e, rs2, l2) →
      getLaser (ThaiIdCardReader.determineRequestCommand atr) rs2 =
        (.ok s, rs3, l3) →
      ThaiIdCardReader.processCardDataEvents opts atr b64 rs =
        [ThaiIdCardReader.Event.cardData { d1 with laserId := some s }] ∧
      ({ d1 with laserId := some s } : ThaiIdCardData).nhso = none) ∧
    (∀ d1 rs1 l1 nd rs2 l2 e rs3 l3,
      ThaiIdCardReader.extractPersonalData
          (ThaiIdCardReader.determineRequestCommand atr) b64 {} rs =
        (.ok d1, rs1, l1) →
      NhsoApplet.getInfo (ThaiIdCardReader.determineRequestCommand atr) rs1 =
        (.ok nd, rs2, l2) →
      getLaser (ThaiIdCardReader.determineRequestCommand atr) rs2 =
        (.error e, rs3, l3) →
      ThaiIdCardReader.processCardDataEvents opts atr b64 rs =
        [ThaiIdCardReader.Event.cardData
          { d1 with nhso := some nd, laserId := some "" }] ∧
      ({ d1 with nhso := some nd, laserId := some "" } :
          ThaiIdCardData).laserId = some "") := by
  refine ⟨?_, ?_, ?_⟩
  · intro e rs1 l1 hp
    have hcard : ThaiIdCardReader.extractCardData atr b64 rs =
        (.error e, rs1, l1) := by
      unfold ThaiIdCardReader.extractCardData
      exact bind_apply_error hp
    have hev : ThaiIdCardReader.processCardDataEvents opts atr b64 rs =
        ThaiIdCardReader.Event.cardError 500
            ("Failed to read Thai National ID Card: " ++ e) ::
          (if opts.exitOnReadError then [ThaiIdCardReader.Event.processExit 1]
           else []) := by
      unfold ThaiIdCardReader.processCardDataEvents
      rw [hcard]
      rfl
    refine ⟨hev, ?_⟩
    intro d hmem
    rw [hev] at hmem
    rcases List.mem_cons.mp hmem with hcontra | hcontra
    · exact absurd hcontra (by simp)
    · by_cases hx : opts.exitOnReadError <;> simp [hx] at hcontra
  · intro d1 rs1 l1 e rs2 l2 s rs3 l3 hp hn hl
    have hH : ThaiIdCardReader.extractHealthData
        (ThaiIdCardReader.determineRequestCommand atr) d1 rs1 =
        (.ok d1, rs2, l2 ++ []) := by
      unfold ThaiIdCardReader.extractHealthData
      exact tryCatch_apply_error (bind_apply_error hn) rfl
    have hL : ThaiIdCardReader.extractLaserData
        (ThaiIdCardReader.determineRequestCommand atr) d1 rs2 =
        (.ok { d1 with laserId := some s }, rs3, l3 ++ []) := by
      unfold ThaiIdCardReader.extractLaserData
      exact tryCatch_apply_ok (bind_apply_ok hl rfl)
    have hcard : ThaiIdCardReader.extractCardData atr b64 rs =
        (.ok { d1 with laserId := some s }, rs3,
         l1 ++ ((l2 ++ []) ++ ((l3 ++ []) ++ []))) := by
      unfold ThaiIdCardReader.extractCardData
      exact bind_apply_ok hp (bind_apply_ok hH (bind_apply_ok hL rfl))
    constructor
    · unfold ThaiIdCardReader.processCardDataEvents
      rw [hcard]
    · show d1.nhso = none
      exact (extractPersonalData_clean hp).1
  · intro d1 rs1 l1 nd rs2 l2 e rs3 l3 hp hn hl
    have hH : ThaiIdCardReader.extractHealthData
        (ThaiIdCardReader.determineRequestCommand atr) d1 rs1 =
        (.ok { d1 with nhso := some nd }, rs2, l2 ++ []) := by
      unfold ThaiIdCardReader.extractHealthData
      exact tryCatch_apply_ok (bind_apply_ok hn rfl)
    have hL : ThaiIdCardReader.extractLaserData
        (ThaiIdCardReader.determineRequestCommand atr)
        { d1 with nhso := some nd } rs2 =
        (.ok { d1 with nhso := some nd, laserId := some "" }, rs3,
         l3 ++ []) := by
      unfold ThaiIdCardReader.extractLaserData
      exact tryCatch_apply_error (bind_apply_error hl) rfl
    have hcard : ThaiIdCardReader.extractCardData atr b64 rs =
        (.ok { d1 with nhso := some nd, laserId := some "" }, rs3,
         l1 ++ ((l2 ++ []) ++ ((l3 ++ []) ++ []))) := by
      unfold ThaiIdCardReader.extractCardData
      exact bind_apply_ok hp (bind_apply_ok hH (bind_apply_ok hL rfl))
    constructor
    · unfold ThaiIdCardReader.processCardDataEvents
      rw [hcard]
    · rfl

theorem readCycle_error_policy_witness :
    (ThaiIdCardReader.processCardDataEvents ⟨true, false⟩ [0x3b] id [none] =
      ThaiIdCardReader.Event.cardError 500
          "Failed to read Thai National ID Card: Personal data extraction failed: command failed" ::
        [ThaiIdCardReader.Event.processExit 1]) ∧
    (ThaiIdCardReader.processCardDataEvents ⟨true, false⟩ [0x3b] id wRsB =
      [ThaiIdCardReader.Event.cardData { wD1B with laserId := some wSB }] ∧
     ({ wD1B with laserId := some wSB } : ThaiIdCardData).nhso = none) ∧
    (ThaiIdCardReader.processCardDataEvents ⟨true, false⟩ [0x3b] id wRsC =
      [ThaiIdCardReader.Event.cardData
        { wD1C with nhso := some wNdC, laserId := some "" }] ∧
     ({ wD1C with nhso := some wNdC, laserId := some "" } :
        ThaiIdCardData).laserId = some "") := by
  refine ⟨?_, ?_, ?_⟩
  · have h := (readCycle_error_policy ⟨true, false⟩ [0x3b] id [none]).1
      "Personal data extraction failed: command failed" []
      [apduPerson.SELECT ++ apduPerson.THAI_CARD] (by decide)
    exact h.1
  · exact (readCycle_error_policy ⟨true, false⟩ [0x3b] id wRsB).2.1
      wD1B wPB.2.1 wPB.2.2 wEB wNB.2.1 wNB.2.2 wSB wLB.2.1 wLB.2.2
      (by decide) (by decide) (by decide)
  · exact (readCycle_error_policy ⟨true, false⟩ [0x3b] id wRsC).2.2
      wD1C wPC.2.1 wPC.2.2 wNdC wNC.2.1 wNC.2.2 wEC wLC.2.1 wLC.2.2
      (by decide) (by decide) (by decide)

/-- C10: omitted options default to `exitOnReadError = true`, `debug =
false`; consequently, with the default options a failed required-field
(personal-data) cycle emits the 500 `card-error` notification and then
terminates the process with exit code 1. -/
theorem options_default (o : ThaiIdCardReader.CardReaderOptions) :
    (o.exitOnReadError = none →
      (ThaiIdCardReader.validateAndSetOptions o).exitOnReadError = true) ∧
    (o.debug = none → (ThaiIdCardReader.validateAndSetOptions o).debug = false) ∧
    ThaiIdCardReader.validateAndSetOptions {} = ⟨true, false⟩ ∧
    (∀ atr b64 rs e rs1 l1,
      ThaiIdCardReader.extractPersonalData
          (ThaiIdCardReader.determineRequestCommand atr) b64 {} rs =
        (.error e, rs1, l1) →
      ThaiIdCardReader.processCardDataEvents
          (ThaiIdCardReader.validateAndSetOptions {}) atr b64 rs =
        [ThaiIdCardReader.Event.cardError 500
          ("Failed to read Thai National ID Card: " ++ e),
         ThaiIdCardReader.Event.processExit 1]) := by
  refine ⟨?_, ?_, rfl, ?_⟩
  · intro hnone
    unfold ThaiIdCardReader.validateAndSetOptions
    rw [hnone]
    rfl
  · intro hnone
    unfold ThaiIdCardReader.validateAndSetOptions
    rw [hnone]
    rfl
  · intro atr b64 rs e rs1 l1 hp
    have hcard : ThaiIdCardReader.extractCardData atr b64 rs =
        (.error e, rs1, l1) := by
      unfold ThaiIdCardReader.extractCardData
      exact bind_apply_error hp
    unfold ThaiIdCardReader.processCardDataEvents
    rw [hcard]
    rfl

/-- C10 witness: no options supplied, a cycle whose personal extraction
fails on the very first command. -/
theorem options_default_witness :
    (ThaiIdCardReader.validateAndSetOptions {}).exitOnReadError = true ∧
    (ThaiIdCardReader.validateAndSetOptions {}).debug = false ∧
    ThaiIdCardReader.processCardDataEvents
        (ThaiIdCardReader.validateAndSetOptions {}) [0x3b] id [none] =
      [ThaiIdCardReader.Event.cardError 500
        "Failed to read Thai National ID Card: Personal data extraction failed: command failed",
       ThaiIdCardReader.Event.processExit 1] := by
  have h := options_default {}
  exact ⟨h.1 rfl, h.2.1 rfl,
    h.2.2.2 [0x3b] id [none]
      "Personal data extraction failed: command failed" []
      [apduPerson.SELECT ++ apduPerson.THAI_CARD] (by decide)⟩
